import Mathlib

/-!
Shallow embedding of kitty's accessibility shim (`kitty/accessibility.c`).

The shim exposes terminal buffer text, cursor offsets and visible ranges to
the OS assistive-technology layer, and routes dictated text back into the
terminal's input pipeline.  Python-level objects are modelled as explicit
structures; the process-wide window registry (`Boss.window_id_map`) is an
association list; Python exceptions become an error type returned through
`Except`; every entry point takes the global state and returns it (queries
return it unchanged, the single mutation path updates the target window's
child-input pipeline).
-/

namespace Kitty

/-- The screen snapshot read fresh on every query: cursor position,
grid dimensions, scroll offset, history line count, and the rendered
texts of the history buffer (`historybuf.as_text()`) and the live grid
(`str(linebuf)`). -/
structure Screen where
  cursor_x : Int
  cursor_y : Int
  columns : Int
  lines : Int
  scrolled_by : Int
  history_lines : Int
  history_text : String
  linebuf_text : String
deriving DecidableEq

/-- A terminal window: its screen plus the sequence of strings so far
forwarded to the child process through `write_to_child`. -/
structure Window where
  screen : Screen
  child_input : List String
deriving DecidableEq

/-- `Window.write_to_child`: forward a string into the child's input
pipeline. -/
def write_to_child (w : Window) (text : String) : Window :=
  { w with child_input := w.child_input ++ [text] }

/-- Error kinds surfaced by the shim, per the spec's error taxonomy:
unknown window id, host invariant violated, forward-write failure. -/
inductive AccError where
  | lookupError
  | internalError
  | ioError
deriving DecidableEq

/-- Global interpreter state visible to the shim: whether
`global_state.boss` is set, and the `window_id_map` registry. -/
structure AccState where
  boss_available : Bool
  window_id_map : List (Nat × Window)
deriving DecidableEq

/-- `window_id_map.get(window_id)`: first-match lookup in the registry. -/
def map_get : List (Nat × Window) → Nat → Option Window
  | [], _ => none
  | (k, w) :: rest, wid => if k = wid then some w else map_get rest wid

/-- Replace the value stored under `wid` wherever it occurs, leaving all
other entries untouched. -/
def map_set : List (Nat × Window) → Nat → Window → List (Nat × Window)
  | [], _, _ => []
  | (k, w) :: rest, wid, w2 =>
      (if k = wid then (k, w2) else (k, w)) :: map_set rest wid w2

/-- `get_window_from_id`: raises RuntimeError (host invariant violated)
when the Boss object is unavailable, ValueError (the spec's LookupError
kind) when the id is not in the registry. -/
def get_window_from_id (st : AccState) (wid : Nat) : Except AccError Window :=
  if st.boss_available = false then
    .error .internalError
  else
    match map_get st.window_id_map wid with
    | some w => .ok w
    | none => .error .lookupError

/-- `get_terminal_text` on a resolved screen: start from the empty
string, append the history buffer's rendered text, insert one newline only
when the accumulated text is non-empty, then append the live grid text. -/
def terminal_text_of_screen (s : Screen) : String :=
  let result : String := ""
  let result := result ++ s.history_text
  let result := if result.length > 0 then result ++ "\n" else result
  result ++ s.linebuf_text

/-- `accessibility_get_terminal_text`: resolve the window, then render
history plus live grid. A pure query: the state is returned unchanged. -/
def get_terminal_text (st : AccState) (wid : Nat) :
    Except AccError String × AccState :=
  match get_window_from_id st wid with
  | .error e => (.error e, st)
  | .ok w => (.ok (terminal_text_of_screen w.screen), st)

/-- Cursor offset formula from `get_cursor_text_position`:
`(history_lines - scrolled_by + y) * columns + x`. -/
def cursor_text_position_of_screen (s : Screen) : Int :=
  (s.history_lines - s.scrolled_by + s.cursor_y) * s.columns + s.cursor_x

/-- `accessibility_get_cursor_text_position`: resolve the window, read
cursor, columns, scroll offset and history depth, and apply the offset
formula. A pure query: the state is returned unchanged. -/
def get_cursor_text_position (st : AccState) (wid : Nat) :
    Except AccError Int × AccState :=
  match get_window_from_id st wid with
  | .error e => (.error e, st)
  | .ok w => (.ok (cursor_text_position_of_screen w.screen), st)

/-- `process_voice_command`: exact, case-sensitive match of a spoken
phrase against the fixed command table; unmatched text passes through. -/
def process_voice_command (text : String) : String :=
  if text = "new line" ∨ text = "newline" then "\n"
  else if text = "tab" then "\t"
  else if text = "escape" then "\x1b"
  else if text = "space" then " "
  else if text = "backspace" then "\x7f"
  else if text = "delete" then "\x7f"
  else if text = "enter" ∨ text = "return" then "\r"
  else text

/-- `accessibility_insert_text_at_cursor`: normalize the text through
`process_voice_command`, resolve the window, and forward the result to
the window's `write_to_child` input pipeline — the only mutation path. -/
def insert_text_at_cursor (st : AccState) (wid : Nat) (text : String) :
    Except AccError Unit × AccState :=
  let processed_text := process_voice_command text
  match get_window_from_id st wid with
  | .error e => (.error e, st)
  | .ok w =>
      (.ok (),
       { st with window_id_map :=
           map_set st.window_id_map wid (write_to_child w processed_text) })

/-- `accessibility_set_cursor_position`: stub — parses its arguments and
returns None without touching anything. -/
def set_cursor_position (st : AccState) (wid : Nat) (position : Int) :
    Except AccError Unit × AccState :=
  let _ := wid
  let _ := position
  (.ok (), st)

/-- `accessibility_get_number_of_characters`: length of the
`get_terminal_text` result. A pure query: the state is returned
unchanged. -/
def get_number_of_characters (st : AccState) (wid : Nat) :
    Except AccError Nat × AccState :=
  match get_terminal_text st wid with
  | (.error e, st2) => (.error e, st2)
  | (.ok text, st2) => (.ok text.length, st2)

/-- `accessibility_get_visible_character_range` on a resolved screen:
start at `(history_lines - scrolled_by) * columns` clamped below by 0,
with length `lines * columns`. -/
def visible_character_range_of_screen (s : Screen) : Int × Int :=
  let start := (s.history_lines - s.scrolled_by) * s.columns
  let len := s.lines * s.columns
  (if start < 0 then 0 else start, len)

/-- `accessibility_get_visible_character_range`: resolve the window and
compute the visible range. A pure query: the state is returned
unchanged. -/
def get_visible_character_range (st : AccState) (wid : Nat) :
    Except AccError (Int × Int) × AccState :=
  match get_window_from_id st wid with
  | .error e => (.error e, st)
  | .ok w => (.ok (visible_character_range_of_screen w.screen), st)

/-- The nine spoken phrases recognized by `process_voice_command`. -/
def voice_command_phrases : List String :=
  ["new line", "newline", "tab", "escape", "space",
   "backspace", "delete", "enter", "return"]

end Kitty

namespace Kitty

/-- A screen matching the spec's worked scenario: 80 columns, 24 visible
lines, 100 history lines, not scrolled, cursor at (5, 2). -/
def ex_screen : Screen :=
  { cursor_x := 5, cursor_y := 2, columns := 80, lines := 24,
    scrolled_by := 0, history_lines := 100,
    history_text := "hist", linebuf_text := "live" }

/-- A window holding `ex_screen` with an empty child-input pipeline. -/
def ex_window : Window := { screen := ex_screen, child_input := [] }

/-- A state whose registry maps window id 7 to `ex_window`. -/
def ex_state : AccState :=
  { boss_available := true, window_id_map := [(7, ex_window)] }

/-- A state with an empty window registry. -/
def empty_state : AccState := { boss_available := true, window_id_map := [] }

/-- A screen scrolled past its (empty) history: geometry is valid by the
spec's field constraints, yet the cursor offset formula goes negative. -/
def c2_screen : Screen :=
  { cursor_x := 0, cursor_y := 0, columns := 80, lines := 24,
    scrolled_by := 1, history_lines := 0,
    history_text := "", linebuf_text := "" }

/-- A window holding `c2_screen`. -/
def c2_window : Window := { screen := c2_screen, child_input := [] }

/-- A state whose registry maps window id 3 to `c2_window`. -/
def c2_state : AccState :=
  { boss_available := true, window_id_map := [(3, c2_window)] }

/-- A string not matching any phrase passes through `process_voice_command`
unchanged: none of the seven equality tests fires. -/
theorem pvc_pass_of_not_phrase (s : String) (hs : s ∉ voice_command_phrases) :
    process_voice_command s = s := by
  simp only [voice_command_phrases, List.mem_cons, List.not_mem_nil,
    or_false, not_or] at hs
  obtain ⟨h1, h2, h3, h4, h5, h6, h7, h8, h9⟩ := hs
  simp [process_voice_command, h1, h2, h3, h4, h5, h6, h7, h8, h9]

/-- A non-empty string has positive length. -/
theorem length_pos_of_ne (t : String) (h : t ≠ "") : 0 < t.length := by
  cases t with
  | mk data =>
    cases data with
    | nil => exact absurd rfl h
    | cons c cs => simp [String.length]

/-- Updating the value under a key present in the registry makes lookup of
that key return the new value. -/
theorem map_get_map_set (r : List (Nat × Window)) (wid : Nat) (w w2 : Window)
    (h : map_get r wid = some w) :
    map_get (map_set r wid w2) wid = some w2 := by
  induction r with
  | nil => simp [map_get] at h
  | cons p rest ih =>
    obtain ⟨k, wv⟩ := p
    by_cases hk : k = wid
    · simp only [map_set, if_pos hk]
      simp only [map_get, if_pos hk]
    · simp only [map_set, if_neg hk]
      simp only [map_get, if_neg hk] at h ⊢
      exact ih h

end Kitty

namespace Kitty

/-- Claim C1: for every window resolvable from the registry,
`get_cursor_text_position` returns exactly
`(history_lines - scrolled_by + y) * columns + x` computed from the
window's screen. -/
theorem getCursorOffset_eq_formula (st : AccState) (wid : Nat) (w : Window)
    (hboss : st.boss_available = true)
    (hw : map_get st.window_id_map wid = some w) :
    (get_cursor_text_position st wid).1 =
      Except.ok ((w.screen.history_lines - w.screen.scrolled_by +
        w.screen.cursor_y) * w.screen.columns + w.screen.cursor_x) := by
  simp [get_cursor_text_position, get_window_from_id, hboss, hw,
    cursor_text_position_of_screen]

/-- Witness for C1: on the spec's worked scenario (columns 80, visible 24,
history 100, scrolled 0, cursor (5, 2)) the returned offset is 8165. -/
theorem getCursorOffset_eq_formula_witness :
    (get_cursor_text_position ex_state 7).1 = Except.ok 8165 := by
  have h := getCursorOffset_eq_formula ex_state 7 ex_window rfl (by decide)
  rw [h]
  rfl

/-- Claim C9: `set_cursor_position` is a no-op: for every state, window id
and position it returns success and leaves the state unchanged. -/
theorem set_cursor_position_noop (st : AccState) (wid : Nat) (position : Int) :
    set_cursor_position st wid position = (Except.ok (), st) := rfl

/-- Claim C10: `process_voice_command` is idempotent — no emitted control
string is itself one of the recognized spoken phrases. -/
theorem process_voice_command_idempotent (s : String) :
    process_voice_command (process_voice_command s) =
      process_voice_command s := by
  by_cases h : s ∈ voice_command_phrases
  · fin_cases h <;> decide
  · rw [pvc_pass_of_not_phrase s h]
    exact pvc_pass_of_not_phrase s h

/-- Claim C3: the command table maps, by exact case-sensitive equality,
the nine spoken phrases to their control bytes, and every other string
(wrong-case variants and multi-word phrases included) passes through
unchanged. -/
theorem voice_command_table_exact :
    process_voice_command "new line" = "\n" ∧
    process_voice_command "newline" = "\n" ∧
    process_voice_command "tab" = "\t" ∧
    process_voice_command "escape" = "\x1b" ∧
    process_voice_command "space" = " " ∧
    process_voice_command "backspace" = "\x7f" ∧
    process_voice_command "delete" = "\x7f" ∧
    process_voice_command "enter" = "\r" ∧
    process_voice_command "return" = "\r" ∧
    process_voice_command "NEW LINE" = "NEW LINE" ∧
    process_voice_command "hello world" = "hello world" ∧
    ∀ s : String, s ∉ voice_command_phrases → process_voice_command s = s :=
  ⟨by decide, by decide, by decide, by decide, by decide, by decide,
   by decide, by decide, by decide, by decide, by decide,
   fun s hs => pvc_pass_of_not_phrase s hs⟩

/-- Witness for C3: the pass-through clause applied to the concrete
non-phrase "open file". -/
theorem voice_command_table_exact_witness :
    process_voice_command "open file" = "open file" :=
  voice_command_table_exact.2.2.2.2.2.2.2.2.2.2.2 "open file" (by decide)

end Kitty

namespace Kitty

/-- Claim C2 counterexample: `c2_screen` satisfies every geometry and
cursor constraint of the claim (columns > 0, visible lines > 0,
history_lines ≥ 0, scrolled_by ≥ 0, cursor in range), yet the returned
offset is -80, violating `0 ≤ offset`. -/
theorem cursorOffset_invariant_counterexample :
    0 < c2_screen.columns ∧ 0 < c2_screen.lines ∧
    0 ≤ c2_screen.history_lines ∧ 0 ≤ c2_screen.scrolled_by ∧
    0 ≤ c2_screen.cursor_x ∧ c2_screen.cursor_x < c2_screen.columns ∧
    0 ≤ c2_screen.cursor_y ∧ c2_screen.cursor_y < c2_screen.lines ∧
    (get_cursor_text_position c2_state 3).1 = Except.ok (-80) ∧
    ¬ (0 ≤ (-80 : Int)) :=
  ⟨by decide, by decide, by decide, by decide, by decide, by decide,
   by decide, by decide, rfl, by decide⟩

/-- Claim C2 amended: when additionally `scrolled_by ≤ history_lines`,
the offset returned by `get_cursor_text_position` lies within
`[0, history_lines*columns + visible_lines*columns]`. -/
theorem cursorOffset_invariant_of_scrolled_le_history
    (st : AccState) (wid : Nat) (w : Window)
    (hboss : st.boss_available = true)
    (hw : map_get st.window_id_map wid = some w)
    (hc : 0 < w.screen.columns) (hv : 0 < w.screen.lines)
    (hh : 0 ≤ w.screen.history_lines) (hs0 : 0 ≤ w.screen.scrolled_by)
    (hsh : w.screen.scrolled_by ≤ w.screen.history_lines)
    (hx0 : 0 ≤ w.screen.cursor_x) (hx : w.screen.cursor_x < w.screen.columns)
    (hy0 : 0 ≤ w.screen.cursor_y) (hy : w.screen.cursor_y < w.screen.lines) :
    0 ≤ cursor_text_position_of_screen w.screen ∧
    cursor_text_position_of_screen w.screen ≤
      w.screen.history_lines * w.screen.columns +
        w.screen.lines * w.screen.columns ∧
    (get_cursor_text_position st wid).1 =
      Except.ok (cursor_text_position_of_screen w.screen) := by
  refine ⟨?_, ?_, ?_⟩
  · unfold cursor_text_position_of_screen
    have h1 : 0 ≤ w.screen.history_lines - w.screen.scrolled_by +
        w.screen.cursor_y := by linarith
    have h2 := mul_nonneg h1 hc.le
    linarith
  · unfold cursor_text_position_of_screen
    have h1 : w.screen.history_lines - w.screen.scrolled_by +
        w.screen.cursor_y ≤
        w.screen.history_lines + w.screen.lines - 1 := by linarith
    have h2 := mul_le_mul_of_nonneg_right h1 hc.le
    have h3 : (w.screen.history_lines + w.screen.lines - 1) *
        w.screen.columns =
        w.screen.history_lines * w.screen.columns +
          w.screen.lines * w.screen.columns - w.screen.columns := by ring
    linarith
  · simp [get_cursor_text_position, get_window_from_id, hboss, hw]

/-- Witness for C2's amended theorem: on the spec's worked scenario the
offset 8165 lies within the bound 8320. -/
theorem cursorOffset_invariant_witness :
    0 ≤ cursor_text_position_of_screen ex_window.screen ∧
    cursor_text_position_of_screen ex_window.screen ≤
      ex_window.screen.history_lines * ex_window.screen.columns +
        ex_window.screen.lines * ex_window.screen.columns ∧
    (get_cursor_text_position ex_state 7).1 =
      Except.ok (cursor_text_position_of_screen ex_window.screen) :=
  cursorOffset_invariant_of_scrolled_le_history ex_state 7 ex_window rfl
    (by decide) (by decide) (by decide) (by decide) (by decide) (by decide)
    (by decide) (by decide) (by decide) (by decide)

/-- Claim C4: for every resolvable window the terminal text is the
history text, one newline iff the history text is non-empty, then the
live-grid text; with empty history it is exactly the live-grid text. -/
theorem terminal_text_concat (st : AccState) (wid : Nat) (w : Window)
    (hboss : st.boss_available = true)
    (hw : map_get st.window_id_map wid = some w) :
    (w.screen.history_text ≠ "" →
      (get_terminal_text st wid).1 =
        Except.ok (w.screen.history_text ++ "\n" ++ w.screen.linebuf_text)) ∧
    (w.screen.history_text = "" →
      (get_terminal_text st wid).1 = Except.ok w.screen.linebuf_text) := by
  have hres : (get_terminal_text st wid).1 =
      Except.ok (terminal_text_of_screen w.screen) := by
    simp [get_terminal_text, get_window_from_id, hboss, hw]
  constructor
  · intro h
    rw [hres]
    have hlen : 0 < w.screen.history_text.length := length_pos_of_ne _ h
    simp [terminal_text_of_screen, hlen]
  · intro h
    rw [hres]
    simp [terminal_text_of_screen, h]

/-- Witness for C4: with history text "hist" and live text "live" the
result is "hist", a newline, then "live". -/
theorem terminal_text_concat_witness :
    (get_terminal_text ex_state 7).1 =
      Except.ok (ex_window.screen.history_text ++ "\n" ++
        ex_window.screen.linebuf_text) :=
  (terminal_text_concat ex_state 7 ex_window rfl (by decide)).1 (by decide)

/-- Claim C5: whenever `get_terminal_text` succeeds with text `t`,
`get_number_of_characters` returns exactly `t.length`, a `Nat` and hence
non-negative. -/
theorem character_count_eq_text_length (st : AccState) (wid : Nat)
    (t : String)
    (h : (get_terminal_text st wid).1 = Except.ok t) :
    (get_number_of_characters st wid).1 = Except.ok t.length := by
  rcases he : get_terminal_text st wid with ⟨r, st2⟩
  rw [he] at h
  have hr : r = Except.ok t := h
  subst hr
  simp [get_number_of_characters, he]

/-- Witness for C5: on the worked scenario the character count is the
length of "hist\nlive". -/
theorem character_count_eq_text_length_witness :
    (get_number_of_characters ex_state 7).1 =
      Except.ok ("hist\nlive".length) :=
  character_count_eq_text_length ex_state 7 "hist\nlive" rfl

end Kitty

namespace Kitty

/-- Clamping a negative integer to zero is taking the maximum with
zero. -/
theorem clamp_eq_max (z : Int) : (if z < 0 then 0 else z) = max 0 z := by
  rcases le_or_lt 0 z with hz | hz
  · rw [if_neg (not_lt.mpr hz), max_eq_right hz]
  · rw [if_pos hz, max_eq_left hz.le]

/-- Claim C6: for every resolvable window, the visible range returned is
`(max 0 ((history_lines - scrolled_by) * columns), visible_lines * columns)`,
and its start component is never negative. -/
theorem visible_range_eq_spec (st : AccState) (wid : Nat) (w : Window)
    (hboss : st.boss_available = true)
    (hw : map_get st.window_id_map wid = some w) :
    (get_visible_character_range st wid).1 =
      Except.ok (max 0 ((w.screen.history_lines - w.screen.scrolled_by) *
        w.screen.columns), w.screen.lines * w.screen.columns) ∧
    0 ≤ max 0 ((w.screen.history_lines - w.screen.scrolled_by) *
      w.screen.columns) := by
  constructor
  · have hif : visible_character_range_of_screen w.screen =
        (max 0 ((w.screen.history_lines - w.screen.scrolled_by) *
          w.screen.columns), w.screen.lines * w.screen.columns) := by
      simp only [visible_character_range_of_screen, clamp_eq_max]
    simp [get_visible_character_range, get_window_from_id, hboss, hw, hif]
  · exact le_max_left 0 _

/-- Witness for C6: on the spec's worked scenario the visible range is
(8000, 1920). -/
theorem visible_range_eq_spec_witness :
    ((get_visible_character_range ex_state 7).1 =
      Except.ok (max 0 ((ex_window.screen.history_lines -
        ex_window.screen.scrolled_by) * ex_window.screen.columns),
        ex_window.screen.lines * ex_window.screen.columns) ∧
    0 ≤ max 0 ((ex_window.screen.history_lines -
      ex_window.screen.scrolled_by) * ex_window.screen.columns)) ∧
    (get_visible_character_range ex_state 7).1 =
      Except.ok ((8000 : Int), (1920 : Int)) :=
  ⟨visible_range_eq_spec ex_state 7 ex_window rfl (by decide), rfl⟩

/-- Claim C7: an unknown window id makes every query operation fail with
the lookup error and return the state unchanged. -/
theorem unknown_window_lookup_error (st : AccState) (wid : Nat)
    (hboss : st.boss_available = true)
    (h : map_get st.window_id_map wid = none) :
    get_terminal_text st wid = (Except.error AccError.lookupError, st) ∧
    get_cursor_text_position st wid =
      (Except.error AccError.lookupError, st) ∧
    get_number_of_characters st wid =
      (Except.error AccError.lookupError, st) ∧
    get_visible_character_range st wid =
      (Except.error AccError.lookupError, st) := by
  have hres : get_window_from_id st wid =
      Except.error AccError.lookupError := by
    simp [get_window_from_id, hboss, h]
  refine ⟨?_, ?_, ?_, ?_⟩
  · simp [get_terminal_text, hres]
  · simp [get_cursor_text_position, hres]
  · simp [get_number_of_characters, get_terminal_text, hres]
  · simp [get_visible_character_range, hres]

/-- Witness for C7: id 0 in the empty registry fails every query with the
lookup error, state unchanged. -/
theorem unknown_window_lookup_error_witness :
    get_terminal_text empty_state 0 =
      (Except.error AccError.lookupError, empty_state) ∧
    get_cursor_text_position empty_state 0 =
      (Except.error AccError.lookupError, empty_state) ∧
    get_number_of_characters empty_state 0 =
      (Except.error AccError.lookupError, empty_state) ∧
    get_visible_character_range empty_state 0 =
      (Except.error AccError.lookupError, empty_state) :=
  unknown_window_lookup_error empty_state 0 rfl rfl

/-- Claim C8: for every resolvable window, `insert_text_at_cursor`
succeeds and appends exactly the `process_voice_command` output of the
input text to that window's child-input pipeline. -/
theorem insert_text_forwards_normalized (st : AccState) (wid : Nat)
    (w : Window) (text : String)
    (hboss : st.boss_available = true)
    (hw : map_get st.window_id_map wid = some w) :
    (insert_text_at_cursor st wid text).1 = Except.ok () ∧
    map_get (insert_text_at_cursor st wid text).2.window_id_map wid =
      some { w with child_input :=
        w.child_input ++ [process_voice_command text] } := by
  have hres : get_window_from_id st wid = Except.ok w := by
    simp [get_window_from_id, hboss, hw]
  constructor
  · simp [insert_text_at_cursor, hres]
  · simp only [insert_text_at_cursor, hres]
    exact map_get_map_set st.window_id_map wid w _ hw

/-- Witness for C8: dictating "new line" to the worked-scenario window
makes the child pipeline receive exactly the single byte "\n", never the
literal phrase. -/
theorem insert_text_forwards_normalized_witness :
    process_voice_command "new line" = "\n" ∧
    (insert_text_at_cursor ex_state 7 "new line").1 = Except.ok () ∧
    map_get (insert_text_at_cursor ex_state 7 "new line").2.window_id_map
        7 =
      some { ex_window with child_input :=
        ex_window.child_input ++ [process_voice_command "new line"] } :=
  ⟨by decide,
   (insert_text_forwards_normalized ex_state 7 ex_window "new line" rfl
     (by decide)).1,
   (insert_text_forwards_normalized ex_state 7 ex_window "new line" rfl
     (by decide)).2⟩

end Kitty
